import Mathlib

/-!
Verification of the multi-provider LLM orchestration core of
`Meaningful-Announcements` (`src/aiService.js`, the v1-API version whose
line numbers the claims cite).  The JavaScript functions `extractFeatures`,
`callGeminiV1API`, `generateInfographicHTML` and `generateGuide` are
shallowly embedded as total Lean functions over explicit backend-outcome
inputs; JS regex `replace` calls are embedded as left-to-right scanners
matching the exact regexes of the source, and `JSON.parse` is embedded by a
fuel-based JSON parser over character lists (subset: `\uXXXX` escapes are
not modelled; numeric tokens are kept as raw token strings, which is enough
for every claim, none of which depends on numeric-value identification).
-/

namespace AiService

/-- The backtick character (kept out of literals). -/
def backtick : Char := Char.ofNat 96

/-- The whitespace class of JS `\s` / `String.trim` (ASCII part). -/
def isJsWs (c : Char) : Bool :=
  c = ' ' || c = '\t' || c = '\n' || c = '\r' || c = Char.ofNat 11 || c = Char.ofNat 12

/-- JS `String.trim` on a character list: drop `\s` from both ends. -/
def jsTrimL (l : List Char) : List Char :=
  (l.dropWhile isJsWs).rdropWhile isJsWs

/-- Case-sensitive literal-prefix match: `some rest` when `needle` is a
prefix of `s`, with `rest` the remainder. -/
def prefixDrop : List Char → List Char → Option (List Char)
  | [], s => some s
  | _ :: _, [] => none
  | n :: ns, c :: cs => if n = c then prefixDrop ns cs else none

/-- Case-insensitive character match used for regexes with the `i` flag:
the needle character `n` is stored lowercase and matches itself or its
uppercase partner. -/
def ciEq (n c : Char) : Bool :=
  n = c || ('a' ≤ n && n ≤ 'z' && c.toNat + 32 = n.toNat)

/-- Case-insensitive literal-prefix match (needle lowercase). -/
def ciPrefixDrop : List Char → List Char → Option (List Char)
  | [], s => some s
  | _ :: _, [] => none
  | n :: ns, c :: cs => if ciEq n c then ciPrefixDrop ns cs else none

/-! ### The JSON value model and `JSON.parse` -/

/-- A parsed JSON value.  Numeric literals are kept as their raw token
(no claim depends on numeric value identification). -/
inductive Json where
  | null
  | bool (b : Bool)
  | num (token : String)
  | str (s : String)
  | arr (elems : List Json)
  | obj (members : List (String × Json))

/-- JSON whitespace accepted by `JSON.parse` between tokens. -/
def isJsonWs (c : Char) : Bool :=
  c = ' ' || c = '\t' || c = '\n' || c = '\r'

def skipWs (l : List Char) : List Char := l.dropWhile isJsonWs

def isDigit (c : Char) : Bool := '0' ≤ c && c ≤ '9'

/-- Body of a JSON string literal after the opening quote; returns the
decoded characters and the remainder after the closing quote.  Control
characters must be escaped; `\uXXXX` is outside the modelled subset. -/
def parseStrBody : List Char → Option (List Char × List Char)
  | [] => none
  | c :: r =>
    if c = '"' then some ([], r)
    else if c = '\\' then
      match r with
      | [] => none
      | e :: r2 =>
        let ec : Option Char :=
          if e = '"' then some '"'
          else if e = '\\' then some '\\'
          else if e = '/' then some '/'
          else if e = 'n' then some '\n'
          else if e = 't' then some '\t'
          else if e = 'r' then some '\r'
          else if e = 'b' then some (Char.ofNat 8)
          else if e = 'f' then some (Char.ofNat 12)
          else none
        match ec with
        | none => none
        | some ch => (parseStrBody r2).map fun p => (ch :: p.1, p.2)
    else if c.toNat < 32 then none
    else (parseStrBody r).map fun p => (c :: p.1, p.2)

/-- A JSON numeric token (sign, integer part without leading zeros,
optional fraction, optional exponent); returns the raw token characters. -/
def parseNumTok (l : List Char) : Option (List Char × List Char) :=
  let (sgn, l1) :=
    match l with
    | '-' :: r => (['-'], r)
    | _ => (([] : List Char), l)
  let intPart : Option (List Char × List Char) :=
    match l1 with
    | '0' :: r => some (['0'], r)
    | c :: _ =>
      if isDigit c then
        some (l1.takeWhile isDigit, l1.dropWhile isDigit)
      else none
    | [] => none
  match intPart with
  | none => none
  | some (ip, r2) =>
    let fracPart : Option (List Char × List Char) :=
      match r2 with
      | '.' :: rr =>
        let ds := rr.takeWhile isDigit
        if ds.isEmpty then none
        else some ('.' :: ds, rr.dropWhile isDigit)
      | _ => some ([], r2)
    match fracPart with
    | none => none
    | some (fp, r3) =>
      let expPart : Option (List Char × List Char) :=
        match r3 with
        | c :: rr =>
          if c = 'e' || c = 'E' then
            let (es, rr2) :=
              match rr with
              | s :: rr3 => if s = '+' || s = '-' then ([s], rr3) else (([] : List Char), rr)
              | [] => (([] : List Char), rr)
            let ds := rr2.takeWhile isDigit
            if ds.isEmpty then none
            else some (c :: (es ++ ds), rr2.dropWhile isDigit)
          else some ([], r3)
        | [] => some ([], r3)
      match expPart with
      | none => none
      | some (ep, r4) => some (sgn ++ ip ++ fp ++ ep, r4)

mutual
/-- Fuel-based JSON value parser (the `JSON.parse` model). -/
def parseV : Nat → List Char → Option (Json × List Char)
  | 0, _ => none
  | n + 1, l =>
    match skipWs l with
    | [] => none
    | '{' :: r => parseObjMembers n (skipWs r) []
    | '[' :: r => parseArrElems n (skipWs r) []
    | '"' :: r => (parseStrBody r).map fun p => (Json.str p.1.asString, p.2)
    | s =>
      match prefixDrop ['n', 'u', 'l', 'l'] s with
      | some r => some (Json.null, r)
      | none =>
        match prefixDrop ['t', 'r', 'u', 'e'] s with
        | some r => some (Json.bool true, r)
        | none =>
          match prefixDrop ['f', 'a', 'l', 's', 'e'] s with
          | some r => some (Json.bool false, r)
          | none => (parseNumTok s).map fun p => (Json.num p.1.asString, p.2)

/-- Members of an object after `{` (input whitespace-skipped). -/
def parseObjMembers : Nat → List Char → List (String × Json) →
    Option (Json × List Char)
  | 0, _, _ => none
  | n + 1, l, acc =>
    match l with
    | '}' :: r => if acc.isEmpty then some (Json.obj [], r) else none
    | '"' :: r =>
      match parseStrBody r with
      | none => none
      | some (k, r1) =>
        match skipWs r1 with
        | ':' :: r2 =>
          match parseV n (skipWs r2) with
          | none => none
          | some (v, r3) =>
            match skipWs r3 with
            | ',' :: r4 => parseObjMembers n (skipWs r4) ((k.asString, v) :: acc)
            | '}' :: r4 => some (Json.obj ((k.asString, v) :: acc).reverse, r4)
            | _ => none
        | _ => none
    | _ => none

/-- Elements of an array after `[` (input whitespace-skipped). -/
def parseArrElems : Nat → List Char → List Json → Option (Json × List Char)
  | 0, _, _ => none
  | n + 1, l, acc =>
    match l with
    | ']' :: r => if acc.isEmpty then some (Json.arr [], r) else none
    | _ =>
      match parseV n l with
      | none => none
      | some (v, r1) =>
        match skipWs r1 with
        | ',' :: r2 => parseArrElems n (skipWs r2) (v :: acc)
        | ']' :: r2 => some (Json.arr (v :: acc).reverse, r2)
        | _ => none
end

/-- Model of JSON.parse on a character list: parse one value, then only trailing
whitespace may remain. -/
def jsonParseL (l : List Char) : Option Json :=
  match parseV (l.length + 2) l with
  | some (j, rest) => if (skipWs rest).isEmpty then some j else none
  | none => none

/-- Model of JSON.parse on a string. -/
def jsonParse (s : String) : Option Json := jsonParseL s.toList

/-! ### JS property access and truthiness -/

/-- JS property read `j[k]` on a parsed JSON value: a lookup on objects
(last binding wins, as in `JSON.parse`), `none` (JS `undefined`)
otherwise.  Reading a property of `null` throws in JS and is handled at
each use site. -/
def getField (j : Json) (k : String) : Option Json :=
  match j with
  | Json.obj kvs => (kvs.reverse.find? fun kv => kv.1 = k).map (·.2)
  | _ => none

/-- Is the mantissa of a JSON numeric token zero (so the JS number is
falsy)? -/
def numTokenZero (t : String) : Bool :=
  ((t.toList.takeWhile fun c => !(c = 'e' || c = 'E')).filter isDigit).all (· = '0')

/-- JS truthiness of a parsed JSON value. -/
def jsTruthy (j : Json) : Bool :=
  match j with
  | Json.null => false
  | Json.bool b => b
  | Json.num t => !numTokenZero t
  | Json.str s => !(s = "")
  | Json.arr _ => true
  | Json.obj _ => true

/-! ### Backend response shapes (as consumed by the code)

The code reads fixed paths out of each provider response
(`response.data.candidates[0].content.parts[0].text` for the Gemini v1
REST call, `response.choices[0].message.tool_calls[0].function.arguments`
and `response.choices[0].message.content` for the OpenAI SDK calls).
Each backend call is an input of type `Except String _`: `.error`
models a rejected promise, `.ok` a resolved response value.  Empty
lists model absent `[0]` elements and `Option` fields model absent
(JS `undefined`/`null`) properties. -/

structure GPart where
  text : Option String

structure GContent where
  parts : List GPart

structure GCandidate where
  content : GContent

/-- The `response.data` of the Gemini v1 `generateContent` REST call. -/
structure GeminiResponse where
  candidates : List GCandidate

/-- Model of `callGeminiV1API` (src/aiService.js lines 201-226): extracts
`candidates[0].content.parts[0].text`; any shape break throws inside the
helper's `try`, is logged and rethrown, so the caller sees a rejection.
`.ok none` is an in-shape response whose `text` property is absent: the
helper returns JS `undefined` without throwing. -/
def callGeminiV1API (r : Except String GeminiResponse) : Except String (Option String) :=
  match r with
  | .error e => .error e
  | .ok resp =>
    match resp.candidates with
    | [] => .error "TypeError"
    | c :: _ =>
      match c.content.parts with
      | [] => .error "TypeError"
      | p :: _ => .ok p.text

structure OaiFunction where
  arguments : String

structure OaiToolCall where
  function : OaiFunction

structure OaiToolMessage where
  tool_calls : Option (List OaiToolCall)

structure OaiToolChoice where
  message : OaiToolMessage

/-- An OpenAI chat-completion response for the forced-function extraction
call. -/
structure OaiToolResponse where
  choices : List OaiToolChoice

/-- The access `response.choices[0].message.tool_calls[0].function.arguments`
(line 311): `none` when any step of the path throws (`choices[0]` or
`tool_calls[0]` absent, or `tool_calls` undefined). -/
def oaiArgs (r : OaiToolResponse) : Option String :=
  match r.choices with
  | [] => none
  | ch :: _ =>
    match ch.message.tool_calls with
    | none => none
    | some [] => none
    | some (t :: _) => some t.function.arguments

/-- One step of the fence strip on the Gemini extraction payload
(line 330): the literal needle (case-sensitive) followed by an optional
newline. -/
def stepFenceTok (needle : List Char) (s : List Char) : Option (List Char × List Char) :=
  match prefixDrop needle s with
  | none => none
  | some r =>
    match r with
    | '\n' :: r2 => some ([], r2)
    | _ => some ([], r)

/-- JS `String.replace` with a `g` flag, as a left-to-right scanner:
`step` returns `(emitted, continuation)` at a match, matched text is
replaced and never rescanned.  Fuel is the input length (every step
consumes at least one character). -/
def scanRepl (step : List Char → Option (List Char × List Char)) :
    Nat → List Char → List Char
  | 0, l => l
  | _ + 1, [] => []
  | n + 1, c :: rest =>
    match step (c :: rest) with
    | some (out, r) => out ++ scanRepl step n r
    | none => c :: scanRepl step n rest

/-- Run one global-replace pass over a character list. -/
def runRepl (step : List Char → Option (List Char × List Char))
    (l : List Char) : List Char :=
  scanRepl step l.length l

/-- The cleanup of the Gemini extraction payload (line 330):
`jsonText.trim().replace(/` ```json\n? `/g, '').replace(/` ```\n? `/g, '')`. -/
def stripJsonFencesL (l : List Char) : List Char :=
  runRepl (stepFenceTok [backtick, backtick, backtick])
    (runRepl (stepFenceTok [backtick, backtick, backtick, 'j', 's', 'o', 'n'])
      (jsTrimL l))

/-- Model of `extractFeatures` (src/aiService.js lines 277-340).  The fixed prompt
only feeds the backends, whose behaviour is already an explicit input, so
`articleText` does not appear.  Returns the JS value `finalResult`: the
code performs no schema validation, so the result is whatever JSON the
accepted payload parses to (`Json.arr []` on every caught error). -/
def extractFeatures (provider : String) (oaiR : Except String OaiToolResponse)
    (gemR : Except String GeminiResponse) : Json :=
  if provider = "openai" then
    match oaiR with
    | .error _ => Json.arr []
    | .ok resp =>
      match oaiArgs resp with
      | none => Json.arr []
      | some argStr =>
        match jsonParse argStr with
        | none => Json.arr []
        | some Json.null => Json.arr []
        | some j =>
          match getField j "extractedFeatures" with
          | none => Json.arr []
          | some v => if jsTruthy v then v else Json.arr []
  else
    match callGeminiV1API gemR with
    | .error _ => Json.arr []
    | .ok none => Json.arr []
    | .ok (some s) =>
      match jsonParseL (stripJsonFencesL s.toList) with
      | none => Json.arr []
      | some j => j

/-- Stub Gemini backend response carrying one text payload. -/
def mkGemText (s : String) : GeminiResponse :=
  ⟨[⟨⟨[⟨some s⟩]⟩⟩]⟩

/-- Stub OpenAI tool-call response carrying one arguments payload. -/
def mkOaiArgs (s : String) : OaiToolResponse :=
  ⟨[⟨⟨some [⟨⟨s⟩⟩]⟩⟩]⟩

/-! ### The response-sanitization pipeline of `generateGuide`
(src/aiService.js lines 434-448), one scanner per `replace` call. -/

/-- Match for the fence regex of line 434, three backticks followed by an
optional literal `html` (the regex group `(html)?`, greedy). -/
def stepFence (s : List Char) : Option (List Char × List Char) :=
  match s with
  | a :: rest =>
    if a = backtick then
      match rest with
      | b :: c :: r =>
        if b = backtick && c = backtick then
          match r with
          | 'h' :: 't' :: 'm' :: 'l' :: r2 => some ([], r2)
          | _ => some ([], r)
        else none
      | _ => none
    else none
  | [] => none

/-- Is `d` a heading-level digit (`[1-6]`)? -/
def isH16 (d : Char) : Bool := '1' ≤ d && d ≤ '6'

/-- Scan greedily over `[^>]*` and consume the first `>`; `none` when no
`>` remains. -/
def scanGt : List Char → Option (List Char)
  | [] => none
  | c :: r => if c = '>' then some r else scanGt r

/-- Opening-heading match `<h[1-6][^>]*>` (case-insensitive `h`): the
remainder after the tag, or `none`. -/
def matchHeadOpen (s : List Char) : Option (List Char) :=
  match s with
  | a :: rest =>
    if a = '<' then
      match rest with
      | b :: d :: r => if ciEq 'h' b && isH16 d then scanGt r else none
      | _ => none
    else none
  | [] => none

/-- Closing-heading match `<\/h[1-6]>` (case-insensitive `h`). -/
def matchHeadClose (s : List Char) : Option (List Char) :=
  match s with
  | a :: b :: c :: d :: e :: r =>
    if a = '<' && b = '/' && ciEq 'h' c && isH16 d && e = '>' then some r else none
  | _ => none

/-- Does the remainder start a heading-open tag `<h[1-6]` (the lookahead
of the heading-section regexes)? -/
def isHeadStart (s : List Char) : Bool :=
  match s with
  | a :: b :: d :: _ => a = '<' && ciEq 'h' b && isH16 d
  | _ => false

/-- The lazy `.*?needle` scan: `.` does not cross a newline; the first
reachable occurrence is taken (later occurrences cannot enable a close tag
the first one cannot reach, so the regex backtracking never picks them). -/
def findNeedle (needle : List Char) : List Char → Option (List Char)
  | [] => none
  | c :: rest =>
    match ciPrefixDrop needle (c :: rest) with
    | some r => some r
    | none => if c = '\n' then none else findNeedle needle rest

/-- The lazy `.*?<\/h[1-6]>` scan, again newline-bounded. -/
def findHeadClose : List Char → Option (List Char)
  | [] => none
  | c :: rest =>
    match matchHeadClose (c :: rest) with
    | some r => some r
    | none => if c = '\n' then none else findHeadClose rest

/-- The lazy `[\s\S]*?(?=<h[1-6]|$)` scan: consume anything up to the
next heading-open tag or the end of the text (always succeeds). -/
def scanToHead : List Char → List Char
  | [] => []
  | c :: rest => if isHeadStart (c :: rest) then c :: rest else scanToHead rest

/-- One attempt of the heading-section regex
`<h[1-6][^>]*>.*?NEEDLE.*?<\/h[1-6]>[\s\S]*?(?=<h[1-6]|$)` (flags `gi`,
lines 438-439) at the current position. -/
def stepHeadSection (needle : List Char) (s : List Char) :
    Option (List Char × List Char) :=
  match matchHeadOpen s with
  | none => none
  | some r1 =>
    match findNeedle needle r1 with
    | none => none
    | some r2 =>
      match findHeadClose r2 with
      | none => none
      | some r3 => some ([], scanToHead r3)

/-- The needle of the first heading-section regex (line 438). -/
def infographicNeedle : List Char :=
  ['i', 'n', 'f', 'o', 'g', 'r', 'a', 'p', 'h', 'i', 'c']

/-- The needle of the second heading-section regex (line 439). -/
def businessValueNeedle : List Char :=
  ['b', 'u', 's', 'i', 'n', 'e', 's', 's', ' ', 'v', 'a', 'l', 'u', 'e', ' ',
   'v', 'i', 's', 'u', 'a', 'l', 'i', 'z', 'a', 't', 'i', 'o', 'n']

/-- Match for `<img[^>]*>` (flags `gi`, line 442). -/
def stepImg (s : List Char) : Option (List Char × List Char) :=
  match s with
  | a :: rest =>
    if a = '<' then
      match ciPrefixDrop ['i', 'm', 'g'] rest with
      | none => none
      | some r1 => (scanGt r1).map fun r2 => ([], r2)
    else none
  | [] => none

/-- One repetition `<br\s*\/?>\s*` of the line-break regex (line 445):
deterministic, since `\s`, `/` and `>` are pairwise disjoint. -/
def matchBrUnit (s : List Char) : Option (List Char) :=
  match s with
  | a :: rest =>
    if a = '<' then
      match ciPrefixDrop ['b', 'r'] rest with
      | none => none
      | some r1 =>
        match r1.dropWhile isJsWs with
        | '/' :: '>' :: r2 => some (r2.dropWhile isJsWs)
        | '>' :: r2 => some (r2.dropWhile isJsWs)
        | _ => none
    else none
  | [] => none

/-- Count the greedy run of `<br...>` repetitions (fuelled; each unit
consumes at least four characters). -/
def brUnits : Nat → List Char → Nat × List Char
  | 0, l => (0, l)
  | n + 1, l =>
    match matchBrUnit l with
    | none => (0, l)
    | some r =>
      let p := brUnits n r
      (p.1 + 1, p.2)

/-- Match for `(<br\s*\/?>\s*){3,}` (flags `gi`), replaced by
`<br><br>`. -/
def stepBrRun (s : List Char) : Option (List Char × List Char) :=
  match s with
  | a :: _ =>
    if a = '<' then
      let p := brUnits s.length s
      if 3 ≤ p.1 then
        some (['<', 'b', 'r', '>', '<', 'b', 'r', '>'], p.2)
      else none
    else none
  | [] => none

/-- Match for an empty container `<TAG[^>]*>\s*<\/TAG>` (flags `gi`,
lines 446-447, with `TAG` = `div` or `section`). -/
def stepEmptyTag (tag : List Char) (s : List Char) :
    Option (List Char × List Char) :=
  match s with
  | a :: rest =>
    if a = '<' then
      match ciPrefixDrop tag rest with
      | none => none
      | some r1 =>
        match scanGt r1 with
        | none => none
        | some r2 =>
          match (r2.dropWhile isJsWs) with
          | b :: c :: r3 =>
            if b = '<' && c = '/' then
              match ciPrefixDrop tag r3 with
              | none => none
              | some r4 =>
                match r4 with
                | '>' :: r5 => some ([], r5)
                | _ => none
            else none
          | _ => none
    else none
  | [] => none

/-- The full sanitization pipeline applied to raw guide text
(src/aiService.js lines 434-448), in source order: fence strip + trim,
the two heading-section removals, image removal, line-break collapsing,
empty `div` and `section` removal, final trim. -/
def sanitizeL (l : List Char) : List Char :=
  jsTrimL
    (runRepl (stepEmptyTag ['s', 'e', 'c', 't', 'i', 'o', 'n'])
      (runRepl (stepEmptyTag ['d', 'i', 'v'])
        (runRepl stepBrRun
          (runRepl stepImg
            (runRepl (stepHeadSection businessValueNeedle)
              (runRepl (stepHeadSection infographicNeedle)
                (jsTrimL (runRepl stepFence l))))))))

/-- The sanitization pipeline on strings. -/
def sanitize (s : String) : String := (sanitizeL s.toList).asString

/-! ### `generateInfographicHTML` and `generateGuide`
(src/aiService.js lines 360-390 and 396-462). -/

structure OaiGuideMessage where
  content : Option String

structure OaiGuideChoice where
  message : OaiGuideMessage

/-- An OpenAI chat-completion response for the free-text guide call. -/
structure OaiGuideResponse where
  choices : List OaiGuideChoice

/-- A feature record as passed to `generateGuide`; the fields only feed
the prompts, which in turn only feed the backends. -/
structure Feature where
  featureName : String
  featureSummary : String

/-- The result of `generateGuide`: `infographicHtml` is `none` for JS
`null`. -/
structure GuideResult where
  infographicHtml : Option String
  html : String
deriving DecidableEq

/-- Model of `generateInfographicHTML` (lines 360-390): one fixed Gemini call,
code-fence strip and trim on success, every failure (rejection, shape
break rethrown by `callGeminiV1API`, or an absent `text` making
`htmlInfographic.replace` throw) caught and converted to `null`.  It
never rejects. -/
def generateInfographicHTML (infoR : Except String GeminiResponse) : Option String :=
  match callGeminiV1API infoR with
  | .error _ => none
  | .ok none => none
  | .ok (some s) => some (jsTrimL (runRepl stepFence s.toList)).asString

/-- The guide-text promise of `generateGuide` (lines 418-430): for
`openai` the `.then(res => res.choices[0].message.content)` projection
(whose throw on an absent `choices[0]` rejects the promise), otherwise
`callGeminiV1API`.  `.ok none` is a resolved promise whose value is JS
`undefined`/`null`. -/
def textBranch (provider : String) (oaiR : Except String OaiGuideResponse)
    (gemR : Except String GeminiResponse) : Except String (Option String) :=
  if provider = "openai" then
    match oaiR with
    | .error e => .error e
    | .ok resp =>
      match resp.choices with
      | [] => .error "TypeError"
      | c :: _ => .ok c.message.content
  else callGeminiV1API gemR

/-- Does the guide-text branch fail?  Either its promise rejects, or it
resolves to a non-string so that `textResult.replace` throws (line 434);
both land in the same `catch`. -/
def textBranchFails (provider : String) (oaiR : Except String OaiGuideResponse)
    (gemR : Except String GeminiResponse) : Bool :=
  match textBranch provider oaiR gemR with
  | .error _ => true
  | .ok none => true
  | .ok (some _) => false

/-- The fixed error fragment of the `catch` block (line 459). -/
def errorGuideHtml : String :=
  "<h3>Error Generating Guide</h3><p>Could not generate the technical guide using the selected AI provider.</p>"

/-- Model of `generateGuide` (lines 396-462): the infographic branch (always the
fixed Gemini backend `infoR`, independent of `provider`) and the selected
text branch are joined by `Promise.all`; on a resolved join the raw text
is sanitized and paired with the infographic value, and every failure
path ends in the `catch` result.  `feature` and `useCase` only feed the
prompts and hence the backends. -/
def generateGuide (feature : Feature) (useCase : String) (provider : String)
    (oaiR : Except String OaiGuideResponse) (gemR : Except String GeminiResponse)
    (infoR : Except String GeminiResponse) : GuideResult :=
  let infographicResult := generateInfographicHTML infoR
  match textBranch provider oaiR gemR with
  | .error _ => ⟨none, errorGuideHtml⟩
  | .ok none => ⟨none, errorGuideHtml⟩
  | .ok (some t) => ⟨infographicResult, sanitize t⟩

/-! ### The timed `Promise.all` join (for the concurrency claim)

An asynchronous outcome is a settlement time paired with a resolution or
rejection; `promiseAll2` is the documented semantics of a two-element
`Promise.all`: it resolves at the later resolution, but rejects already
at the first rejection, without awaiting the other operand. -/

/-- Semantics of `Promise.all` on two timed outcomes. -/
def promiseAll2 (a : Nat × Except String α) (b : Nat × Except String β) :
    Nat × Except String (α × β) :=
  match a, b with
  | (ta, .ok va), (tb, .ok vb) => (max ta tb, .ok (va, vb))
  | (ta, .error ea), (tb, .error eb) =>
    if ta ≤ tb then (ta, .error ea) else (tb, .error eb)
  | (ta, .error ea), (_, .ok _) => (ta, .error ea)
  | (_, .ok _), (tb, .error eb) => (tb, .error eb)

/-- Model of `generateGuide` with settlement times: `tInfo` and `tText` are the
settlement times of the two branch promises (the infographic branch
always resolves, converting its failures to `null` internally); the
returned time is when the `await Promise.all` of line 432 resumes the
orchestrator. -/
def generateGuideTimed (feature : Feature) (useCase : String) (provider : String)
    (tInfo : Nat) (infoR : Except String GeminiResponse)
    (tText : Nat) (oaiR : Except String OaiGuideResponse)
    (gemR : Except String GeminiResponse) : Nat × GuideResult :=
  let joined := promiseAll2 (tInfo, Except.ok (generateInfographicHTML infoR))
    (tText, textBranch provider oaiR gemR)
  match joined with
  | (t, .error _) => (t, ⟨none, errorGuideHtml⟩)
  | (t, .ok (_, none)) => (t, ⟨none, errorGuideHtml⟩)
  | (t, .ok (ig, some txt)) => (t, ⟨ig, sanitize txt⟩)

/-! ### Predicates used by the claims -/

/-- Plain text: no backtick and no `<`, so that no scanner of the
sanitization pipeline can start a match. -/
def plainText (l : List Char) : Bool :=
  l.all fun c => !(c = backtick) && !(c = '<')

/-- A well-formed feature record per the schema of lines 238-251: a
non-empty string `featureName`, a non-empty string `featureSummary`, and
a present `potentialUseCases` array (of any length). -/
def featureWF (j : Json) : Bool :=
  match getField j "featureName", getField j "featureSummary",
      getField j "potentialUseCases" with
  | some (Json.str n), some (Json.str s), some (Json.arr _) =>
    !(n = "") && !(s = "")
  | _, _, _ => false

/-- The failure condition of the OpenAI extraction path: rejection, a
throw while reading the tool-call path, an unparseable `arguments`
payload, a `null` payload (reading `.extractedFeatures` of `null`
throws), or a missing/falsy wrapper key. -/
def oaiExtractFails (oaiR : Except String OaiToolResponse) : Bool :=
  match oaiR with
  | .error _ => true
  | .ok resp =>
    match oaiArgs resp with
    | none => true
    | some argStr =>
      match jsonParse argStr with
      | none => true
      | some Json.null => true
      | some j =>
        match getField j "extractedFeatures" with
        | none => true
        | some v => !jsTruthy v

/-- The failure condition of the Gemini extraction path: rejection
(including the rethrown shape breaks of `callGeminiV1API`), an absent
`text` (so `.trim()` throws), or an unparseable payload after fence
stripping. -/
def gemExtractFails (gemR : Except String GeminiResponse) : Bool :=
  match callGeminiV1API gemR with
  | .error _ => true
  | .ok none => true
  | .ok (some s) => (jsonParseL (stripJsonFencesL s.toList)).isNone

/-! ### Helper lemmas about the trim and the replace scanners -/

/-- Round trip between character lists and strings. -/
theorem asString_toList (l : List Char) : l.asString.toList = l := rfl

/-- Trimming is idempotent. -/
theorem jsTrimL_idem (l : List Char) : jsTrimL (jsTrimL l) = jsTrimL l := by
  unfold jsTrimL
  have h1 : List.dropWhile isJsWs ((List.dropWhile isJsWs l).rdropWhile isJsWs)
      = (List.dropWhile isJsWs l).rdropWhile isJsWs := by
    cases h : (List.dropWhile isJsWs l).rdropWhile isJsWs with
    | nil => simp
    | cons a t =>
      have hpre : (a :: t) <+: List.dropWhile isJsWs l := by
        rw [← h]; exact List.rdropWhile_prefix _ _
      obtain ⟨s, hs⟩ := hpre
      have hx : List.dropWhile isJsWs l = a :: (t ++ s) := by
        rw [← hs]; rfl
      have hne : List.dropWhile isJsWs l ≠ [] := by rw [hx]; simp
      have h0 := List.head_dropWhile_not isJsWs l hne
      have ha : isJsWs a = false := by
        simp only [hx, List.head_cons] at h0
        exact h0
      rw [List.dropWhile_cons, ha]
      simp
  rw [h1, List.rdropWhile_idempotent]

/-- Characters of the trimmed list come from the original list. -/
theorem mem_of_mem_jsTrimL {c : Char} {l : List Char} (h : c ∈ jsTrimL l) : c ∈ l := by
  unfold jsTrimL at h
  have h1 : c ∈ List.dropWhile isJsWs l :=
    ((List.rdropWhile_prefix _ _).sublist).mem h
  exact ((List.dropWhile_suffix _).sublist).mem h1

theorem plainText_jsTrimL {l : List Char} (h : plainText l = true) :
    plainText (jsTrimL l) = true := by
  simp only [plainText, List.all_eq_true] at *
  intro c hc
  exact h c (mem_of_mem_jsTrimL hc)

/-- A global-replace scanner whose matcher needs a backtick or `<` at the
match head is the identity on plain text. -/
theorem scanRepl_eq_self {step : List Char → Option (List Char × List Char)}
    (hstep : ∀ c rest, c ≠ backtick → c ≠ '<' → step (c :: rest) = none) :
    ∀ n l, plainText l = true → scanRepl step n l = l := by
  intro n
  induction n with
  | zero => intro l _; rfl
  | succ n ih =>
    intro l h
    cases l with
    | nil => rfl
    | cons c rest =>
      simp only [plainText, List.all_cons, Bool.and_eq_true, Bool.not_eq_true',
        decide_eq_false_iff_not] at h
      unfold scanRepl
      rw [hstep c rest h.1.1 h.1.2]
      have : plainText rest = true := by
        simp only [plainText, List.all_eq_true]
        intro x hx
        have := (List.all_eq_true.mp h.2) x hx
        exact this
      rw [ih rest this]

theorem runRepl_eq_self {step : List Char → Option (List Char × List Char)}
    (hstep : ∀ c rest, c ≠ backtick → c ≠ '<' → step (c :: rest) = none)
    {l : List Char} (h : plainText l = true) : runRepl step l = l :=
  scanRepl_eq_self hstep l.length l h

theorem stepFence_none {c : Char} (rest : List Char) (h : c ≠ backtick) :
    stepFence (c :: rest) = none := by
  simp [stepFence, h]

theorem matchHeadOpen_none {c : Char} (rest : List Char) (h : c ≠ '<') :
    matchHeadOpen (c :: rest) = none := by
  simp [matchHeadOpen, h]

theorem stepHeadSection_none (needle : List Char) {c : Char} (rest : List Char)
    (h : c ≠ '<') : stepHeadSection needle (c :: rest) = none := by
  simp [stepHeadSection, matchHeadOpen_none rest h]

theorem stepImg_none {c : Char} (rest : List Char) (h : c ≠ '<') :
    stepImg (c :: rest) = none := by
  simp [stepImg, h]

theorem stepBrRun_none {c : Char} (rest : List Char) (h : c ≠ '<') :
    stepBrRun (c :: rest) = none := by
  simp [stepBrRun, h]

theorem stepEmptyTag_none (tag : List Char) {c : Char} (rest : List Char)
    (h : c ≠ '<') : stepEmptyTag tag (c :: rest) = none := by
  simp [stepEmptyTag, h]

/-- On plain text every pass of the pipeline other than the two trims is
the identity, so sanitization reduces to one trim. -/
theorem sanitizeL_plain {l : List Char} (h : plainText l = true) :
    sanitizeL l = jsTrimL l := by
  have hf : runRepl stepFence l = l :=
    runRepl_eq_self (fun c r h1 _ => stepFence_none r h1) h
  have hm : plainText (jsTrimL l) = true := plainText_jsTrimL h
  unfold sanitizeL
  rw [hf]
  rw [runRepl_eq_self (fun c r _ h2 => stepHeadSection_none _ r h2) hm]
  rw [runRepl_eq_self (fun c r _ h2 => stepHeadSection_none _ r h2) hm]
  rw [runRepl_eq_self (fun c r _ h2 => stepImg_none r h2) hm]
  rw [runRepl_eq_self (fun c r _ h2 => stepBrRun_none r h2) hm]
  rw [runRepl_eq_self (fun c r _ h2 => stepEmptyTag_none _ r h2) hm]
  rw [runRepl_eq_self (fun c r _ h2 => stepEmptyTag_none _ r h2) hm]
  exact jsTrimL_idem l

/-! ### Claims -/

/-- Claim C3 (counterexample).  The sanitization pipeline is *not*
idempotent: on nested empty containers one pass of the empty-`div`
removal (line 446) deletes only the inner pair (the JS global replace
does not rescan), leaving `<div></div>`, which a second `sanitize` then
deletes. -/
theorem sanitize_not_idempotent_counterexample :
    sanitize (sanitize "<div><div></div></div>") ≠
      sanitize "<div><div></div></div>" := by
  decide

/-- Claim C3 (amended).  `sanitize` is idempotent on inputs containing no
backtick and no `<` (where every pass reduces to trimming); on general
inputs a second application can strictly reduce the text further. -/
theorem sanitize_idempotent_on_plain_text (s : String)
    (h : plainText s.toList = true) : sanitize (sanitize s) = sanitize s := by
  unfold sanitize
  rw [asString_toList, sanitizeL_plain h, sanitizeL_plain (plainText_jsTrimL h),
    jsTrimL_idem]

/-- Claim C3 (witness). -/
theorem sanitize_idempotent_on_plain_text_witness :
    plainText "  a plain guide  ".toList = true ∧
      sanitize (sanitize "  a plain guide  ") = sanitize "  a plain guide  " :=
  ⟨by decide, sanitize_idempotent_on_plain_text "  a plain guide  " (by decide)⟩

/-- Claim C5.  Whenever the guide-text branch fails (its promise rejects,
or it resolves to a non-string so that `.replace` throws in the same
`try`), `generateGuide` returns the fixed error fragment with a `null`
`infographicHtml`, regardless of the infographic branch's outcome, and
never raises (the embedding is a total function whose every failure path
lands in the `catch` result of lines 455-461). -/
theorem generateGuide_error_result (feature : Feature) (useCase provider : String)
    (oaiR : Except String OaiGuideResponse) (gemR infoR : Except String GeminiResponse)
    (h : textBranchFails provider oaiR gemR = true) :
    generateGuide feature useCase provider oaiR gemR infoR = ⟨none, errorGuideHtml⟩ := by
  unfold generateGuide
  unfold textBranchFails at h
  cases htb : textBranch provider oaiR gemR with
  | error e => simp [htb]
  | ok v =>
    rw [htb] at h
    cases v with
    | none => simp [htb]
    | some t => simp at h

/-- Claim C5 (witness): the text branch rejects while the infographic
branch succeeds; the result is still the error fragment with `null`. -/
theorem generateGuide_error_result_witness :
    generateGuide ⟨"F", "S"⟩ "U" "gemini" (Except.error "stub")
      (Except.error "network") (Except.ok (mkGemText "<div>info</div>")) =
      ⟨none, errorGuideHtml⟩ :=
  generateGuide_error_result _ _ _ _ _ _ (by decide)

/-- Claim C6.  Whenever the infographic branch fails (is converted to
`null` by its own `catch`, lines 386-389) and the guide-text branch
succeeds, the result pairs `infographicHtml = null` with the sanitized
guide text; the infographic failure is never propagated. -/
theorem generateGuide_infographic_null (feature : Feature)
    (useCase provider : String) (oaiR : Except String OaiGuideResponse)
    (gemR infoR : Except String GeminiResponse) (t : String)
    (h1 : generateInfographicHTML infoR = none)
    (h2 : textBranch provider oaiR gemR = Except.ok (some t)) :
    generateGuide feature useCase provider oaiR gemR infoR = ⟨none, sanitize t⟩ := by
  simp [generateGuide, h1, h2]

/-- Claim C6 (witness): the infographic call rejects (network error), the
gemini text call succeeds. -/
theorem generateGuide_infographic_null_witness :
    generateGuide ⟨"F", "S"⟩ "U" "gemini" (Except.error "stub")
      (Except.ok (mkGemText "<p>Guide</p>")) (Except.error "network") =
      ⟨none, sanitize "<p>Guide</p>"⟩ :=
  generateGuide_infographic_null _ _ _ _ _ _ _ rfl rfl

/-- Claim C9.  The infographic branch always runs against the one fixed
Gemini backend (`infoR`), independent of `provider`; hence two runs of
`generateGuide` differing only in the provider argument have equal
`infographicHtml` components whenever both runs' guide-text branches
succeed. -/
theorem generateGuide_infographic_provider_independent (feature : Feature)
    (useCase p1 p2 : String) (oaiR : Except String OaiGuideResponse)
    (gemR infoR : Except String GeminiResponse) (t1 t2 : String)
    (h1 : textBranch p1 oaiR gemR = Except.ok (some t1))
    (h2 : textBranch p2 oaiR gemR = Except.ok (some t2)) :
    (generateGuide feature useCase p1 oaiR gemR infoR).infographicHtml =
      (generateGuide feature useCase p2 oaiR gemR infoR).infographicHtml := by
  simp [generateGuide, h1, h2]

/-- Claim C9 (witness): providers `gemini` vs `openai` over identical
backends. -/
theorem generateGuide_infographic_provider_independent_witness :
    (generateGuide ⟨"F", "S"⟩ "U" "gemini" (Except.ok ⟨[⟨⟨some "<p>A</p>"⟩⟩]⟩)
        (Except.ok (mkGemText "<p>B</p>")) (Except.ok (mkGemText "<div>I</div>"))).infographicHtml =
      (generateGuide ⟨"F", "S"⟩ "U" "openai" (Except.ok ⟨[⟨⟨some "<p>A</p>"⟩⟩]⟩)
        (Except.ok (mkGemText "<p>B</p>")) (Except.ok (mkGemText "<div>I</div>"))).infographicHtml :=
  generateGuide_infographic_provider_independent ⟨"F", "S"⟩ "U" "gemini" "openai"
    (Except.ok ⟨[⟨⟨some "<p>A</p>"⟩⟩]⟩) (Except.ok (mkGemText "<p>B</p>"))
    (Except.ok (mkGemText "<div>I</div>")) "<p>B</p>" "<p>A</p>" rfl rfl

/-- Claim C10.  Any provider string other than `"openai"` (not only
`"gemini"`) takes the `else` branch of both dispatches: the provider
selector is never validated. -/
theorem provider_defaults_to_gemini (p : String) (hp : p ≠ "openai")
    (oaiR : Except String OaiToolResponse) (gemR : Except String GeminiResponse)
    (feature : Feature) (useCase : String) (oaiG : Except String OaiGuideResponse)
    (gemT infoR : Except String GeminiResponse) :
    extractFeatures p oaiR gemR = extractFeatures "gemini" oaiR gemR ∧
      generateGuide feature useCase p oaiG gemT infoR =
        generateGuide feature useCase "gemini" oaiG gemT infoR := by
  constructor
  · simp [extractFeatures, hp]
  · simp [generateGuide, textBranch, hp]

/-- Claim C10 (witness): an arbitrary invalid provider string. -/
theorem provider_defaults_to_gemini_witness :
    extractFeatures "LLaMA" (Except.error "stub") (Except.ok (mkGemText "[]")) =
        extractFeatures "gemini" (Except.error "stub") (Except.ok (mkGemText "[]")) ∧
      generateGuide ⟨"F", "S"⟩ "U" "LLaMA" (Except.error "stub")
          (Except.ok (mkGemText "<p>B</p>")) (Except.error "network") =
        generateGuide ⟨"F", "S"⟩ "U" "gemini" (Except.error "stub")
          (Except.ok (mkGemText "<p>B</p>")) (Except.error "network") :=
  provider_defaults_to_gemini "LLaMA" (by decide) (Except.error "stub")
    (Except.ok (mkGemText "[]")) ⟨"F", "S"⟩ "U" (Except.error "stub")
    (Except.ok (mkGemText "<p>B</p>")) (Except.error "network")

/-- Reading the only key of a one-key object. -/
theorem getField_singleton (k : String) (v : Json) :
    getField (Json.obj [(k, v)]) k = some v := by
  simp [getField]

/-- Claim C1 (counterexample).  `extractFeatures` performs no schema
validation: the accepted Gemini payload `[{}]` (a record missing every
required field) is returned as a one-record sequence instead of being
treated as a failure. -/
theorem extractFeatures_unvalidated_counterexample :
    extractFeatures "gemini" (Except.error "stub")
        (Except.ok (mkGemText "[\x7b\x7d]")) = Json.arr [Json.obj []] ∧
      featureWF (Json.obj []) = false ∧
      Json.arr [Json.obj []] ≠ Json.arr [] := by
  refine ⟨rfl, rfl, ?_⟩
  simp

/-- Claim C1 (amended).  The result is the parsed payload unvalidated:
when every record of the accepted backend payload is well-formed, so is
every element of the returned sequence (for both providers); but a
payload with a malformed record is passed through, not converted to the
empty-sequence failure. -/
theorem extractFeatures_wf_of_conforming_payload (sGem sOai : String)
    (lG lO : List Json) (oR : Except String OaiToolResponse)
    (gR : Except String GeminiResponse)
    (hG : jsonParseL (stripJsonFencesL sGem.toList) = some (Json.arr lG))
    (hGwf : ∀ j ∈ lG, featureWF j = true)
    (hO : jsonParse sOai = some (Json.obj [("extractedFeatures", Json.arr lO)]))
    (hOwf : ∀ j ∈ lO, featureWF j = true) :
    (extractFeatures "gemini" oR (Except.ok (mkGemText sGem)) = Json.arr lG ∧
        ∀ j ∈ lG, featureWF j = true) ∧
      (extractFeatures "openai" (Except.ok (mkOaiArgs sOai)) gR = Json.arr lO ∧
        ∀ j ∈ lO, featureWF j = true) := by
  refine ⟨⟨?_, hGwf⟩, ?_, hOwf⟩
  · have hG' : jsonParseL (stripJsonFencesL sGem.data) = some (Json.arr lG) := hG
    simp [extractFeatures, callGeminiV1API, mkGemText, hG']
  · simp [extractFeatures, oaiArgs, mkOaiArgs, hO, getField_singleton, jsTruthy]

/-- Claim C1 (witness). -/
theorem extractFeatures_wf_of_conforming_payload_witness :
    (extractFeatures "gemini" (Except.error "stub")
        (Except.ok (mkGemText "[\x7b\"featureName\":\"A\",\"featureSummary\":\"B\",\"potentialUseCases\":[\"C\"]\x7d]")) =
          Json.arr [Json.obj [("featureName", Json.str "A"),
            ("featureSummary", Json.str "B"),
            ("potentialUseCases", Json.arr [Json.str "C"])]] ∧
        ∀ j ∈ [Json.obj [("featureName", Json.str "A"),
            ("featureSummary", Json.str "B"),
            ("potentialUseCases", Json.arr [Json.str "C"])]], featureWF j = true) ∧
      (extractFeatures "openai"
          (Except.ok (mkOaiArgs "\x7b\"extractedFeatures\":[\x7b\"featureName\":\"A\",\"featureSummary\":\"B\",\"potentialUseCases\":[\"C\"]\x7d]\x7d"))
          (Except.error "stub") =
          Json.arr [Json.obj [("featureName", Json.str "A"),
            ("featureSummary", Json.str "B"),
            ("potentialUseCases", Json.arr [Json.str "C"])]] ∧
        ∀ j ∈ [Json.obj [("featureName", Json.str "A"),
            ("featureSummary", Json.str "B"),
            ("potentialUseCases", Json.arr [Json.str "C"])]], featureWF j = true) :=
  extractFeatures_wf_of_conforming_payload _ _ _ _ (Except.error "stub")
    (Except.error "stub") rfl (by decide) rfl (by decide)

/-- Claim C2 (counterexample).  A Gemini payload that parses as JSON but
violates the expected top-level-array shape is returned as parsed (here
the object `{}`), not converted to the empty sequence. -/
theorem extractFeatures_shape_counterexample :
    extractFeatures "gemini" (Except.error "stub")
        (Except.ok (mkGemText "\x7b\x7d")) = Json.obj [] ∧
      Json.obj [] ≠ Json.arr [] := by
  refine ⟨rfl, ?_⟩
  simp

/-- Claim C2 (amended).  Every rejection, throw while reading the response
path, or JSON-parse failure yields the empty sequence (and the embedding
is total, so extraction never raises); but a payload that parses as JSON
of an unexpected shape is returned as parsed, not replaced by the empty
sequence. -/
theorem extractFeatures_failure_empty (oaiR : Except String OaiToolResponse)
    (gemR : Except String GeminiResponse) :
    (oaiExtractFails oaiR = true →
        extractFeatures "openai" oaiR gemR = Json.arr []) ∧
      (gemExtractFails gemR = true →
        extractFeatures "gemini" oaiR gemR = Json.arr []) ∧
      (∀ s j, callGeminiV1API gemR = Except.ok (some s) →
        jsonParseL (stripJsonFencesL s.toList) = some j →
        extractFeatures "gemini" oaiR gemR = j) := by
  refine ⟨?_, ?_, ?_⟩
  · intro h
    cases oaiR with
    | error e => simp [extractFeatures]
    | ok resp =>
      simp only [oaiExtractFails] at h
      cases ha : oaiArgs resp with
      | none => simp [extractFeatures, ha]
      | some argStr =>
        simp only [ha] at h
        cases hj : jsonParse argStr with
        | none => simp [extractFeatures, ha, hj]
        | some j =>
          simp only [hj] at h
          cases j with
          | null => simp [extractFeatures, ha, hj]
          | bool b =>
            cases hg : getField (Json.bool b) "extractedFeatures" with
            | none => simp [extractFeatures, ha, hj, hg]
            | some v =>
              simp only [hg, Bool.not_eq_true'] at h
              simp [extractFeatures, ha, hj, hg, h]
          | num t =>
            cases hg : getField (Json.num t) "extractedFeatures" with
            | none => simp [extractFeatures, ha, hj, hg]
            | some v =>
              simp only [hg, Bool.not_eq_true'] at h
              simp [extractFeatures, ha, hj, hg, h]
          | str s =>
            cases hg : getField (Json.str s) "extractedFeatures" with
            | none => simp [extractFeatures, ha, hj, hg]
            | some v =>
              simp only [hg, Bool.not_eq_true'] at h
              simp [extractFeatures, ha, hj, hg, h]
          | arr es =>
            cases hg : getField (Json.arr es) "extractedFeatures" with
            | none => simp [extractFeatures, ha, hj, hg]
            | some v =>
              simp only [hg, Bool.not_eq_true'] at h
              simp [extractFeatures, ha, hj, hg, h]
          | obj ms =>
            cases hg : getField (Json.obj ms) "extractedFeatures" with
            | none => simp [extractFeatures, ha, hj, hg]
            | some v =>
              simp only [hg, Bool.not_eq_true'] at h
              simp [extractFeatures, ha, hj, hg, h]
  · intro h
    cases gemR with
    | error e => simp [extractFeatures, callGeminiV1API]
    | ok resp =>
      simp only [gemExtractFails] at h
      cases hc : callGeminiV1API (Except.ok resp) with
      | error e => simp [extractFeatures, hc]
      | ok v =>
        simp only [hc] at h
        cases v with
        | none => simp [extractFeatures, hc]
        | some s =>
          cases hp : jsonParseL (stripJsonFencesL s.toList) with
          | none =>
            have hp' : jsonParseL (stripJsonFencesL s.data) = none := hp
            simp [extractFeatures, hc, hp']
          | some j =>
            simp only [hp, Option.isNone_some] at h
            exact absurd h (by simp)
  · intro s j hc hp
    have hp' : jsonParseL (stripJsonFencesL s.data) = some j := hp
    simp [extractFeatures, hc, hp']

/-- Claim C2 (witness). -/
theorem extractFeatures_failure_empty_witness :
    extractFeatures "openai" (Except.error "boom")
        (Except.ok (mkGemText "not json")) = Json.arr [] ∧
      extractFeatures "gemini" (Except.error "boom")
        (Except.ok (mkGemText "not json")) = Json.arr [] ∧
      extractFeatures "gemini" (Except.error "boom")
        (Except.ok (mkGemText "\x7b\x7d")) = Json.obj [] :=
  ⟨(extractFeatures_failure_empty (Except.error "boom")
      (Except.ok (mkGemText "not json"))).1 rfl,
    (extractFeatures_failure_empty (Except.error "boom")
      (Except.ok (mkGemText "not json"))).2.1 rfl,
    (extractFeatures_failure_empty (Except.error "boom")
      (Except.ok (mkGemText "\x7b\x7d"))).2.2 "\x7b\x7d" (Json.obj []) rfl rfl⟩

/-- Claim C4 (counterexample).  The join of line 432 is `Promise.all`,
which is fail-on-first-error: with the text branch rejecting at time 0
and the infographic branch settling at time 5, the orchestrator resumes
at time 0 — it does *not* suspend until both operations reach their
terminal outcome. -/
theorem promiseAll_failfast_counterexample :
    (generateGuideTimed ⟨"F", "S"⟩ "U" "gemini" 5
        (Except.ok (mkGemText "<div>I</div>")) 0 (Except.error "stub")
        (Except.error "boom")).1 = 0 ∧
      (0 : Nat) ≠ max 5 0 := by
  exact ⟨rfl, by decide⟩

/-- Claim C4 (amended).  The two calls are issued as independent promises
joined by `Promise.all`.  Because the infographic branch converts its
own failures to a resolved `null`, the join rejects only when the text
branch rejects: whenever the text promise resolves the orchestrator
waits for both settlement times (resume time is their maximum, with
infographic failures collected as `null`), but a text-branch rejection
resolves the join at the rejection time without awaiting the infographic
branch. -/
theorem generateGuideTimed_join (feature : Feature) (useCase provider : String)
    (tInfo : Nat) (infoR : Except String GeminiResponse) (tText : Nat)
    (oaiR : Except String OaiGuideResponse) (gemR : Except String GeminiResponse) :
    (∀ v, textBranch provider oaiR gemR = Except.ok v →
        (generateGuideTimed feature useCase provider tInfo infoR tText oaiR gemR).1 =
          max tInfo tText) ∧
      (∀ e, textBranch provider oaiR gemR = Except.error e →
        generateGuideTimed feature useCase provider tInfo infoR tText oaiR gemR =
          (tText, ⟨none, errorGuideHtml⟩)) := by
  constructor
  · intro v hv
    cases v with
    | none => simp [generateGuideTimed, promiseAll2, hv]
    | some t => simp [generateGuideTimed, promiseAll2, hv]
  · intro e he
    simp [generateGuideTimed, promiseAll2, he]

/-- Claim C4 (witness). -/
theorem generateGuideTimed_join_witness :
    (generateGuideTimed ⟨"F", "S"⟩ "U" "gemini" 5
        (Except.ok (mkGemText "<div>I</div>")) 9 (Except.error "stub")
        (Except.ok (mkGemText "<p>G</p>"))).1 = max 5 9 ∧
      generateGuideTimed ⟨"F", "S"⟩ "U" "gemini" 7
        (Except.ok (mkGemText "<div>I</div>")) 2 (Except.error "stub")
        (Except.error "down") = (2, ⟨none, errorGuideHtml⟩) :=
  ⟨(generateGuideTimed_join ⟨"F", "S"⟩ "U" "gemini" 5
      (Except.ok (mkGemText "<div>I</div>")) 9 (Except.error "stub")
      (Except.ok (mkGemText "<p>G</p>"))).1 (some "<p>G</p>") rfl,
    (generateGuideTimed_join ⟨"F", "S"⟩ "U" "gemini" 7
      (Except.ok (mkGemText "<div>I</div>")) 2 (Except.error "stub")
      (Except.error "down")).2 "down" rfl⟩

/-- Claim C7 (counterexample).  The heading-section regexes (lines
438-439) fail the claim in both directions.  First conjunct: a heading
whose text mentions "Infographic" but contains a newline before the
closing tag is not removed at all (the regex `.` cannot cross the
newline), although the claim requires the heading and all following
content to be removed.  Second conjunct: a section whose heading does
*not* mention "Infographic" (`<h1>Setup</h1>`) is swallowed when the
word appears later on the same line before some closing-heading tag, so
content of other sections does not survive. -/
theorem sanitize_heading_section_counterexample :
    sanitize "<h2>An Infographic\nhere</h2>hello" =
        "<h2>An Infographic\nhere</h2>hello" ∧
      sanitize "<h1>Setup</h1>an Infographic mention</h2>MORE<h2>Next</h2>end" =
        "<h2>Next</h2>end" := by
  exact ⟨by decide, by decide⟩

/-- Claim C7 (amended).  The sanitizer removes a heading-delimited stretch
when, with no intervening newline, a heading-open tag is followed by
"Infographic" or "Business Value Visualization" (case-insensitively) and
then by some closing-heading tag; removal extends to the next
heading-open tag or the end of text.  When the mention sits inside a
single-line heading element this removes that section and other content
survives (the demonstrations below); a newline before the closing tag
defeats removal, and the match may instead start at an earlier heading. -/
theorem sanitize_heading_section_demo :
    sanitize "<p>intro</p><h2>The Infographic</h2>junk<h2>Steps</h2>ok" =
        "<p>intro</p><h2>Steps</h2>ok" ∧
      sanitize "A<h1 class=\"t\">BUSINESS VALUE VISUALIZATION</h1>gone<h2>Kept</h2>B" =
        "A<h2>Kept</h2>B" := by
  exact ⟨by decide, by decide⟩

/-- Claim C8.  Provider-agnostic normalization: a stubbed `openai` backend
whose function-call arguments are the object-wrapped list and a stubbed
`gemini` backend returning the bare array with the same record content
yield the same sequence. -/
theorem extractFeatures_provider_agnostic (sOai sGem : String) (l : List Json)
    (oR : Except String OaiToolResponse) (gR : Except String GeminiResponse)
    (hO : jsonParse sOai = some (Json.obj [("extractedFeatures", Json.arr l)]))
    (hG : jsonParseL (stripJsonFencesL sGem.toList) = some (Json.arr l)) :
    extractFeatures "openai" (Except.ok (mkOaiArgs sOai)) gR =
      extractFeatures "gemini" oR (Except.ok (mkGemText sGem)) := by
  have h1 : extractFeatures "openai" (Except.ok (mkOaiArgs sOai)) gR = Json.arr l := by
    simp [extractFeatures, oaiArgs, mkOaiArgs, hO, getField_singleton, jsTruthy]
  have hG' : jsonParseL (stripJsonFencesL sGem.data) = some (Json.arr l) := hG
  have h2 : extractFeatures "gemini" oR (Except.ok (mkGemText sGem)) = Json.arr l := by
    simp [extractFeatures, callGeminiV1API, mkGemText, hG']
  rw [h1, h2]

/-- Claim C8 (witness): the Gemini stub additionally wraps its array in a
markdown fence, which the extraction path strips before parsing. -/
theorem extractFeatures_provider_agnostic_witness :
    extractFeatures "openai"
        (Except.ok (mkOaiArgs "\x7b\"extractedFeatures\":[\x7b\"featureName\":\"N\",\"featureSummary\":\"S\",\"potentialUseCases\":[\"U1\",\"U2\"]\x7d]\x7d"))
        (Except.error "stub") =
      extractFeatures "gemini" (Except.error "stub")
        (Except.ok (mkGemText "```json\n[\x7b\"featureName\":\"N\",\"featureSummary\":\"S\",\"potentialUseCases\":[\"U1\",\"U2\"]\x7d]\n```")) :=
  extractFeatures_provider_agnostic _ _
    [Json.obj [("featureName", Json.str "N"), ("featureSummary", Json.str "S"),
      ("potentialUseCases", Json.arr [Json.str "U1", Json.str "U2"])]]
    (Except.error "stub") (Except.error "stub") rfl rfl

end AiService
